import Mathlib

/-!
Shallow embedding of the contact/address-book assistant in src/project1.py.

Conventions of the embedding:
  - Python strings are Lean String values; character-level work is done on
    String.data (a List Char).
  - Python exceptions are modelled by the Except monad with an explicit
    error type PyErr mirroring the three exception classes the program
    raises and catches (ValueError with its message, IndexError, KeyError).
  - The regular expressions at the two validation sites are compiled by
    hand into boolean character-list predicates.  Note that the Python
    re module lets the anchor dollar-sign also match just before a single
    trailing newline; pyMatchAnchored models that behaviour.  The class
    backslash-d is modelled as an ASCII decimal digit.
  - datetime.date values are a Date structure of numerals, with the
    proleptic Gregorian calendar rules (leap years, month lengths) and a
    rata-die day count used for day differences and weekday computation
    (weekday: Monday = 0 ... Sunday = 6, as in Python).
  - datetime.today() is impure; every function that the source derives
    from it takes an explicit today : Date parameter.
-/

/-! ## Character and string helpers mirroring Python primitives -/

/-- Python whitespace test for the characters relevant here. -/
def pySpace (c : Char) : Bool :=
  c == ' ' || c == '\t' || c == '\n' || c == '\r'

/-- Python str.strip on a character list. -/
def trimWs (l : List Char) : List Char :=
  ((l.dropWhile pySpace).reverse.dropWhile pySpace).reverse

/-- Split at the first space only, as Python s.split(" ", 1) does when a
space occurs; none when no space occurs. -/
def splitFirstSpace : List Char → Option (List Char × List Char)
  | [] => none
  | c :: cs =>
    if c == ' ' then some ([], cs)
    else
      match splitFirstSpace cs with
      | some (a, b) => some (c :: a, b)
      | none => none

/-- Helper of pySplitWs: accumulates the current token reversed. -/
def pySplitWsAux : List Char → List Char → List (List Char)
  | [], acc => if acc.isEmpty then [] else [acc.reverse]
  | c :: cs, acc =>
    if pySpace c then
      if acc.isEmpty then pySplitWsAux cs []
      else acc.reverse :: pySplitWsAux cs []
    else pySplitWsAux cs (c :: acc)

/-- Python str.split() with no arguments: split on whitespace runs,
dropping empty tokens. -/
def pySplitWs (s : String) : List String :=
  (pySplitWsAux s.data []).map String.mk

/-- Helper of splitOnDot. -/
def splitOnDotAux : List Char → List Char → List (List Char)
  | [], acc => [acc.reverse]
  | c :: cs, acc =>
    if c == '.' then acc.reverse :: splitOnDotAux cs []
    else splitOnDotAux cs (c :: acc)

/-- Python s.split(".") - keeps empty pieces, one more piece than dots. -/
def splitOnDot (l : List Char) : List (List Char) :=
  splitOnDotAux l []

/-- Numeric value of a list of ASCII digits. -/
def natOfDigits (l : List Char) : Nat :=
  l.foldl (fun n c => 10 * n + (c.toNat - 48)) 0

/-- Python int(s) restricted to the unsigned case: surrounding whitespace
is stripped, then a nonempty run of digits is required. -/
def pyInt (l : List Char) : Option Nat :=
  let t := trimWs l
  if !t.isEmpty && t.all Char.isDigit then some (natOfDigits t) else none

/-- Python str.lower. -/
def pyLower (s : String) : String :=
  String.mk (s.data.map Char.toLower)

/-- Python sep.join(list). -/
def joinSep (sep : String) : List String → String
  | [] => ""
  | [x] => x
  | x :: y :: xs => x ++ sep ++ joinSep sep (y :: xs)

/-! ## The two regular expressions, compiled by hand -/

/-- Body of the pattern of ten digit characters. -/
def digits10 (l : List Char) : Bool :=
  l.length == 10 && l.all Char.isDigit

/-- Body of the pattern two digits, dot, two digits, dot, four digits. -/
def ddmmyyyyShape : List Char → Bool
  | [a, b, c, d, e, f, g, h, i, j] =>
    a.isDigit && b.isDigit && c == '.' && d.isDigit && e.isDigit &&
      f == '.' && g.isDigit && h.isDigit && i.isDigit && j.isDigit
  | _ => false

/-- When the list ends in a newline, the list without it. -/
def dropFinalNewline (l : List Char) : Option (List Char) :=
  match l.reverse with
  | c :: r => if c == '\n' then some r.reverse else none
  | [] => none

/-- re.match with a pattern anchored by caret and dollar: the dollar also
matches just before a single final newline. -/
def pyMatchAnchored (p : List Char → Bool) (l : List Char) : Bool :=
  p l ||
    (match dropFinalNewline l with
     | some core => p core
     | none => false)

/-- Phone.init validation test (line 32 of the source). -/
def phoneCheck (s : String) : Bool :=
  pyMatchAnchored digits10 s.data

/-- Birthday.init validation test (line 38 of the source). -/
def birthdayCheck (s : String) : Bool :=
  pyMatchAnchored ddmmyyyyShape s.data

/-! ## Calendar arithmetic for datetime.date -/

/-- Gregorian leap-year rule. -/
def isLeap (y : Nat) : Bool :=
  y % 4 == 0 && (y % 100 != 0 || y % 400 == 0)

/-- Length of a month. -/
def daysInMonth (y m : Nat) : Nat :=
  if m = 2 then (if isLeap y then 29 else 28)
  else if m = 4 ∨ m = 6 ∨ m = 9 ∨ m = 11 then 30
  else 31

/-- Number of leap years in the range one to n. -/
def leapCount (n : Nat) : Nat :=
  n / 4 + n / 400 - n / 100

/-- Days strictly before January first of year y (proleptic Gregorian). -/
def daysBeforeYear (y : Nat) : Nat :=
  365 * (y - 1) + leapCount (y - 1)

/-- Days of year y strictly before month m. -/
def daysBeforeMonth (y m : Nat) : Nat :=
  (((List.range (m - 1)).map fun i => daysInMonth y (i + 1))).sum

structure Date where
  year : Nat
  month : Nat
  day : Nat
deriving DecidableEq, Repr

/-- Rata die: day count with 0001-01-01 as day one. -/
def rataDie (dt : Date) : Nat :=
  daysBeforeYear dt.year + daysBeforeMonth dt.year dt.month + dt.day

/-- Python date.weekday: Monday = 0 ... Sunday = 6.  Day one of the rata
die count, 0001-01-01, is a Monday. -/
def weekday (dt : Date) : Nat :=
  (rataDie dt + 6) % 7

/-- A real calendar date with a positive year, as datetime requires. -/
def validDate (dt : Date) : Bool :=
  1 ≤ dt.year && 1 ≤ dt.month && dt.month ≤ 12 &&
    1 ≤ dt.day && dt.day ≤ daysInMonth dt.year dt.month

/-- datetime(year, month, day) construction: none models the ValueError
raised on an invalid combination (year capped at 9999 as in datetime). -/
def mkDate (y m d : Nat) : Option Date :=
  if validDate ⟨y, m, d⟩ && y ≤ 9999 then some ⟨y, m, d⟩ else none

/-- Python datetime comparison is lexicographic on year, month, day. -/
def dateLt (a b : Date) : Bool :=
  a.year < b.year ||
    (a.year == b.year &&
      (a.month < b.month || (a.month == b.month && a.day < b.day)))

/-- The day after, in calendar terms. -/
def nextDay (dt : Date) : Date :=
  if dt.day < daysInMonth dt.year dt.month then ⟨dt.year, dt.month, dt.day + 1⟩
  else if dt.month < 12 then ⟨dt.year, dt.month + 1, 1⟩
  else ⟨dt.year + 1, 1, 1⟩

/-- Adding a timedelta of n days. -/
def addDays (dt : Date) : Nat → Date
  | 0 => dt
  | n + 1 => nextDay (addDays dt n)

/-- Signed day difference, as the days field of a timedelta. -/
def daysTo (today occ : Date) : Int :=
  (rataDie occ : Int) - (rataDie today : Int)

/-- Digit character of n modulo ten. -/
def digitChar (n : Nat) : Char :=
  Char.ofNat (48 + n % 10)

/-- Two-digit zero-padded field of strftime. -/
def pad2 (n : Nat) : List Char :=
  [digitChar (n / 10), digitChar n]

/-- Four-digit zero-padded field of strftime. -/
def pad4 (n : Nat) : List Char :=
  [digitChar (n / 1000), digitChar (n / 100), digitChar (n / 10), digitChar n]

/-- strftime with the format day dot month dot year. -/
def fmtDate (dt : Date) : String :=
  String.mk (pad2 dt.day ++ '.' :: pad2 dt.month ++ '.' :: pad4 dt.year)

example : fmtDate ⟨2024, 6, 17⟩ = "17.06.2024" := rfl
example : weekday ⟨2024, 6, 10⟩ = 0 := rfl
example : weekday ⟨2024, 6, 15⟩ = 5 := rfl
example : phoneCheck "1234567890" = true := rfl
example : phoneCheck "12345" = false := rfl
example : phoneCheck "1234567890\n" = true := rfl
example : birthdayCheck "29.02.2021" = true := rfl
example : birthdayCheck "2.02.2021" = false := rfl
example : pySplitWs "  a bc  d " = ["a", "bc", "d"] := rfl
example : pyInt " 1990\n".data = some 1990 := rfl

/-! ## Exceptions and the data model -/

/-- The exception kinds the program raises and catches. -/
inductive PyErr where
  | valueError : String → PyErr
  | indexError : PyErr
  | keyError : PyErr
deriving DecidableEq, Repr

/-- A Record holds a name, the phone values in insertion order, and the
raw string of an optional birthday, exactly as the source stores them. -/
structure Record where
  name : String
  phones : List String
  birthday : Option String
deriving DecidableEq, Repr

/-- Record.add_phone: validates the string as Phone does, then appends. -/
def Record.add_phone (r : Record) (phone : String) : Except PyErr Record :=
  if phoneCheck phone then .ok { r with phones := r.phones ++ [phone] }
  else .error (.valueError "Phone number must be 10 digits.")

/-- Loop body of Record.edit_phone over the phone list: replace the first
occurrence of the old value after validating the new one. -/
def editPhoneList : List String → String → String → Except PyErr (List String)
  | [], _, _ => .error (.valueError "Old phone not found.")
  | p :: ps, oldp, newp =>
    if p = oldp then
      if phoneCheck newp then .ok (newp :: ps)
      else .error (.valueError "New phone number is not valid.")
    else
      match editPhoneList ps oldp newp with
      | .ok ps2 => .ok (p :: ps2)
      | .error e => .error e

/-- Record.edit_phone. -/
def Record.edit_phone (r : Record) (oldp newp : String) : Except PyErr Record :=
  match editPhoneList r.phones oldp newp with
  | .ok l => .ok { r with phones := l }
  | .error e => .error e

/-- Record.add_birthday: validates the string as Birthday does. -/
def Record.add_birthday (r : Record) (b : String) : Except PyErr Record :=
  if birthdayCheck b then .ok { r with birthday := some b }
  else .error (.valueError "Invalid date format. Use DD.MM.YYYY")

/-- Record.str rendering. -/
def recordStr (r : Record) : String :=
  "Contact name: " ++ r.name ++ ", phones: " ++ joinSep "; " r.phones ++
    ", birthday: " ++
    (match r.birthday with
     | some b => b
     | none => "No birthday set")

/-- The address book is a name-keyed insertion-ordered mapping, modelled
as an association list with unique keys. -/
abbrev AddressBook := List (String × Record)

/-- AddressBook.find: dict.get semantics, none when the name is absent. -/
def AddressBook.find (book : AddressBook) (name : String) : Option Record :=
  match List.find? (fun kv => kv.1 == name) book with
  | some kv => some kv.2
  | none => none

/-- Value assignment of the dict: replace in place when the key exists,
otherwise append, preserving insertion order. -/
def bookSet (book : AddressBook) (name : String) (r : Record) : AddressBook :=
  if (List.find? (fun kv => kv.1 == name) book).isSome then
    List.map (fun kv => if kv.1 == name then (kv.1, r) else kv) book
  else book ++ [(name, r)]

/-- AddressBook.add_record keys the record by its own name. -/
def AddressBook.add_record (book : AddressBook) (r : Record) : AddressBook :=
  bookSet book r.name r

/-! ## The upcoming-birthday query (lines 90 to 104 of the source) -/

/-- Line 95: day, month, year from the stored string via split and int. -/
def parse3 (s : String) : Option (Nat × Nat × Nat) :=
  match splitOnDot s.data with
  | [a, b, c] =>
    match pyInt a, pyInt b, pyInt c with
    | some d, some m, some y => some (d, m, y)
    | _, _, _ => none
  | _ => none

/-- Lines 96 to 98: the occurrence of the month/day in the current year,
rolled to the next year when strictly before today; errors model the ValueError
of datetime construction or replacement on an invalid combination. -/
def resolveOccurrence (today : Date) (m d : Nat) : Except PyErr Date :=
  match mkDate today.year m d with
  | none => .error (.valueError "day is out of range for month")
  | some b0 =>
    if dateLt b0 today then
      match mkDate (today.year + 1) m d with
      | none => .error (.valueError "day is out of range for month")
      | some b1 => .ok b1
    else .ok b0

/-- Lines 99 to 103: keep the record when the day count lies in the window
zero to seven inclusive, shifting a weekend greeting date to Monday. -/
def upcomingEntry (today : Date) (name : String) (occ : Date) :
    List (String × String) :=
  if 0 ≤ daysTo today occ ∧ daysTo today occ ≤ 7 then
    [(name,
      fmtDate (if 5 ≤ weekday occ then addDays occ (7 - weekday occ) else occ))]
  else []

/-- Loop body of get_upcoming_birthdays for one record. -/
def processRecord (today : Date) (r : Record) :
    Except PyErr (List (String × String)) :=
  match r.birthday with
  | none => .ok []
  | some v =>
    match parse3 v with
    | none => .error (.valueError "invalid literal for int() with base 10")
    | some (d, m, _y) =>
      match resolveOccurrence today m d with
      | .error e => .error e
      | .ok occ => .ok (upcomingEntry today r.name occ)

/-- The loop of get_upcoming_birthdays over the stored records. -/
def getUpcomingFrom (today : Date) :
    List Record → Except PyErr (List (String × String))
  | [] => .ok []
  | r :: rs =>
    match processRecord today r with
    | .error e => .error e
    | .ok x =>
      match getUpcomingFrom today rs with
      | .error e => .error e
      | .ok xs => .ok (x ++ xs)

/-- AddressBook.get_upcoming_birthdays, with today passed explicitly. -/
def AddressBook.get_upcoming_birthdays (book : AddressBook) (today : Date) :
    Except PyErr (List (String × String)) :=
  getUpcomingFrom today (book.map Prod.snd)

example :
    AddressBook.get_upcoming_birthdays
      [("Bob", ⟨"Bob", [], some "15.06.1990"⟩)] ⟨2024, 6, 10⟩
      = .ok [("Bob", "17.06.2024")] := rfl
example :
    AddressBook.get_upcoming_birthdays
      [("Eve", ⟨"Eve", [], some "31.04.2000"⟩)] ⟨2024, 6, 10⟩
      = .error (.valueError "day is out of range for month") := rfl

/-! ## Command handlers and the dispatch loop -/

/-- Message the input_error decorator prints for each exception kind; a
ValueError is shown via its own message. -/
def errToMsg : PyErr → String
  | .valueError m => m
  | .indexError => "Invalid input. Please provide the correct arguments."
  | .keyError => "Contact not found."

/-- The input_error decorator: the handler body yields a result or an
exception together with the (possibly partially mutated) book; the
wrapper converts the exception to its message. -/
def input_error (r : Except PyErr String × AddressBook) :
    String × AddressBook :=
  (match r.1 with
   | .ok m => m
   | .error e => errToMsg e, r.2)

/-- Body of add_contact (lines 110 to 119). -/
def add_contact_inner (args : String) (book : AddressBook) :
    Except PyErr String × AddressBook :=
  match pySplitWs args with
  | name :: phone :: _ =>
    (match AddressBook.find book name with
     | some r =>
       (match Record.add_phone r phone with
        | .ok r2 => (.ok "Contact updated.", bookSet book name r2)
        | .error e => (.error e, book))
     | none =>
       let r : Record := { name := name, phones := [], birthday := none }
       let book1 := AddressBook.add_record book r
       (match Record.add_phone r phone with
        | .ok r2 => (.ok "Contact added.", bookSet book1 name r2)
        | .error e => (.error e, book1)))
  | _ =>
    (.error (.valueError "not enough values to unpack (expected at least 2, got 1)"),
     book)

/-- add_contact with its decorator. -/
def add_contact (args : String) (book : AddressBook) : String × AddressBook :=
  input_error (add_contact_inner args book)

/-- Body of add_birthday (lines 122 to 128). -/
def add_birthday_inner (args : String) (book : AddressBook) :
    Except PyErr String × AddressBook :=
  match pySplitWs args with
  | [name, birthday] =>
    (match AddressBook.find book name with
     | none => (.error .keyError, book)
     | some r =>
       (match Record.add_birthday r birthday with
        | .ok r2 => (.ok "Birthday added.", bookSet book name r2)
        | .error e => (.error e, book)))
  | _ =>
    (.error (.valueError "not enough values to unpack (expected 2, got 1)"),
     book)

/-- add_birthday with its decorator. -/
def add_birthday (args : String) (book : AddressBook) : String × AddressBook :=
  input_error (add_birthday_inner args book)

/-- Body of show_birthday (lines 131 to 136). -/
def show_birthday_inner (args : String) (book : AddressBook) :
    Except PyErr String × AddressBook :=
  let name := String.mk (trimWs args.data)
  match AddressBook.find book name with
  | none => (.ok "No birthday found.", book)
  | some r =>
    match r.birthday with
    | none => (.ok "No birthday found.", book)
    | some b => (.ok (name ++ "\x27s birthday is " ++ b), book)

/-- show_birthday with its decorator. -/
def show_birthday (args : String) (book : AddressBook) : String × AddressBook :=
  input_error (show_birthday_inner args book)

/-- Body of birthdays (lines 139 to 143); today is the ambient date. -/
def birthdays_inner (today : Date) (book : AddressBook) :
    Except PyErr String × AddressBook :=
  match AddressBook.get_upcoming_birthdays book today with
  | .error e => (.error e, book)
  | .ok [] => (.ok "No upcoming birthdays.", book)
  | .ok (u :: us) =>
    (.ok (joinSep "\n" ((u :: us).map fun b => b.1 ++ ": " ++ b.2)), book)

/-- birthdays with its decorator. -/
def birthdays (today : Date) (_args : String) (book : AddressBook) :
    String × AddressBook :=
  input_error (birthdays_inner today book)

/-- Body of change_phone (lines 146 to 152). -/
def change_phone_inner (args : String) (book : AddressBook) :
    Except PyErr String × AddressBook :=
  match pySplitWs args with
  | [name, old_phone, new_phone] =>
    (match AddressBook.find book name with
     | none => (.error .keyError, book)
     | some r =>
       (match Record.edit_phone r old_phone new_phone with
        | .ok r2 => (.ok "Phone number changed.", bookSet book name r2)
        | .error e => (.error e, book)))
  | _ =>
    (.error (.valueError "not enough values to unpack (expected 3, got 1)"),
     book)

/-- change_phone with its decorator. -/
def change_phone (args : String) (book : AddressBook) : String × AddressBook :=
  input_error (change_phone_inner args book)

/-- Body of show_all_contacts (lines 155 to 158). -/
def show_all_contacts_inner (book : AddressBook) :
    Except PyErr String × AddressBook :=
  match book with
  | [] => (.ok "No contacts in the address book.", book)
  | _ => (.ok (joinSep "\n" (book.map fun kv => recordStr kv.2)), book)

/-- show_all_contacts with its decorator. -/
def show_all_contacts (_args : String) (book : AddressBook) :
    String × AddressBook :=
  input_error (show_all_contacts_inner book)

/-- parse_input (lines 106 to 107): strip, then split on the first space
if any; the result has one or two elements. -/
def parse_input (s : String) : List String :=
  match splitFirstSpace (trimWs s.data) with
  | some (a, b) => [String.mk a, String.mk b]
  | none => [String.mk (trimWs s.data)]

/-- Outcome of one iteration of the main loop. -/
inductive StepOutcome where
  | exit : StepOutcome
  | output : String → AddressBook → StepOutcome
deriving DecidableEq, Repr

/-- One iteration of the main loop (lines 163 to 185): the tuple unpack
of parse_input into command and args raises ValueError when the parsed
list has fewer than two elements, and that exception is not caught. -/
def mainStep (today : Date) (book : AddressBook) (line : String) :
    Except PyErr StepOutcome :=
  match parse_input line with
  | [command0, args] =>
    let command := pyLower command0
    if command = "close" || command = "exit" then .ok .exit
    else if command = "hello" then .ok (.output "How can I help you?" book)
    else if command = "add" then
      let r := add_contact args book
      .ok (.output r.1 r.2)
    else if command = "add-birthday" then
      let r := add_birthday args book
      .ok (.output r.1 r.2)
    else if command = "show-birthday" then
      let r := show_birthday args book
      .ok (.output r.1 r.2)
    else if command = "birthdays" then
      let r := birthdays today args book
      .ok (.output r.1 r.2)
    else if command = "change" then
      let r := change_phone args book
      .ok (.output r.1 r.2)
    else if command = "all" then
      let r := show_all_contacts args book
      .ok (.output r.1 r.2)
    else .ok (.output "Invalid command." book)
  | _ => .error (.valueError "not enough values to unpack (expected 2, got 1)")

example : parse_input "hello" = ["hello"] := rfl
example : parse_input " add Bob 1234567890 " = ["add", "Bob 1234567890"] := rfl
example :
    mainStep ⟨2024, 6, 10⟩ [] "hello"
      = .error (.valueError "not enough values to unpack (expected 2, got 1)") := rfl
example :
    mainStep ⟨2024, 6, 10⟩ [] "hello there"
      = .ok (.output "How can I help you?" []) := rfl
example :
    add_contact "Bob 1234567890" []
      = ("Contact added.", [("Bob", ⟨"Bob", ["1234567890"], none⟩)]) := rfl
example :
    change_phone "Bob 1234567890 0987654321" []
      = ("Contact not found.", []) := rfl

/-! ## Calendar lemmas -/

lemma leapCount_succ (n : Nat) :
    leapCount (n + 1) = leapCount n + (if isLeap (n + 1) then 1 else 0) := by
  unfold leapCount isLeap
  split_ifs with h
  · simp only [Bool.and_eq_true, Bool.or_eq_true, beq_iff_eq, bne_iff_ne,
      ne_eq] at h
    rcases h with ⟨h4, h100 | h400⟩
    · omega
    · omega
  · simp only [Bool.and_eq_true, Bool.or_eq_true, beq_iff_eq, bne_iff_ne,
      ne_eq, not_and, not_or] at h
    by_cases h4 : (n + 1) % 4 = 0
    · obtain ⟨h100, h400⟩ := h h4
      omega
    · omega

lemma daysBeforeMonth_succ (y m : Nat) :
    daysBeforeMonth y (m + 2) = daysBeforeMonth y (m + 1) + daysInMonth y (m + 1) := by
  unfold daysBeforeMonth
  simp [List.range_succ]

lemma daysBeforeMonth_twelve (y : Nat) :
    daysBeforeMonth y 12 = 334 + (if isLeap y then 1 else 0) := by
  cases h : isLeap y <;>
    simp [daysBeforeMonth, daysInMonth, h, List.range_succ]

lemma daysInMonth_pos (y m : Nat) : 1 ≤ daysInMonth y m := by
  unfold daysInMonth
  split_ifs <;> omega

lemma daysInMonth_twelve (y : Nat) : daysInMonth y 12 = 31 := by
  simp [daysInMonth]

lemma daysBeforeYear_succ (y : Nat) (hy : 1 ≤ y) :
    daysBeforeYear (y + 1) = daysBeforeYear y + 365 + (if isLeap y then 1 else 0) := by
  obtain ⟨n, rfl⟩ : ∃ n, y = n + 1 := ⟨y - 1, by omega⟩
  unfold daysBeforeYear
  simp only [Nat.add_sub_cancel]
  rw [leapCount_succ]
  ring

lemma validDate_iff (dt : Date) :
    validDate dt = true ↔
      1 ≤ dt.year ∧ 1 ≤ dt.month ∧ dt.month ≤ 12 ∧ 1 ≤ dt.day ∧
        dt.day ≤ daysInMonth dt.year dt.month := by
  unfold validDate
  simp [Bool.and_eq_true, and_assoc]

lemma rataDie_nextDay (dt : Date) (hv : validDate dt = true) :
    rataDie (nextDay dt) = rataDie dt + 1 := by
  obtain ⟨hy, hm1, hm2, hd1, hd2⟩ := (validDate_iff dt).mp hv
  unfold nextDay
  split_ifs with h1 h2
  · simp [rataDie]
    ring
  · obtain ⟨m0, hm0⟩ : ∃ k, dt.month = k + 1 := ⟨dt.month - 1, by omega⟩
    have hd : dt.day = daysInMonth dt.year dt.month := by omega
    simp only [rataDie, hm0]
    rw [daysBeforeMonth_succ]
    rw [hm0] at hd
    omega
  · have hm : dt.month = 12 := by omega
    have hd : dt.day = 31 := by
      rw [hm, daysInMonth_twelve] at hd2
      rw [hm] at h1
      rw [daysInMonth_twelve] at h1
      omega
    simp only [rataDie, hm, hd] at *
    rw [daysBeforeYear_succ dt.year hy, daysBeforeMonth_twelve]
    have : daysBeforeMonth (dt.year + 1) 1 = 0 := by
      simp [daysBeforeMonth]
    omega

lemma validDate_nextDay (dt : Date) (hv : validDate dt = true) :
    validDate (nextDay dt) = true := by
  obtain ⟨hy, hm1, hm2, hd1, hd2⟩ := (validDate_iff dt).mp hv
  unfold nextDay
  split_ifs with h1 h2
  · rw [validDate_iff]
    dsimp only
    omega
  · rw [validDate_iff]
    dsimp only
    have := daysInMonth_pos dt.year (dt.month + 1)
    omega
  · rw [validDate_iff]
    dsimp only
    have := daysInMonth_pos (dt.year + 1) 1
    omega

lemma addDays_spec (dt : Date) (hv : validDate dt = true) (n : Nat) :
    validDate (addDays dt n) = true ∧ rataDie (addDays dt n) = rataDie dt + n := by
  induction n with
  | zero => exact ⟨hv, rfl⟩
  | succ k ih =>
    refine ⟨validDate_nextDay _ ih.1, ?_⟩
    show rataDie (nextDay (addDays dt k)) = rataDie dt + (k + 1)
    rw [rataDie_nextDay _ ih.1, ih.2]
    omega

lemma mkDate_valid {y m d : Nat} {dt : Date} (h : mkDate y m d = some dt) :
    validDate dt = true := by
  unfold mkDate at h
  split_ifs at h with hc
  cases h
  exact ((Bool.and_eq_true _ _).mp hc).1

lemma resolveOccurrence_valid {today : Date} {m d : Nat} {occ : Date}
    (h : resolveOccurrence today m d = .ok occ) : validDate occ = true := by
  unfold resolveOccurrence at h
  split at h
  · cases h
  · rename_i b0 h1
    split at h
    · split at h
      · cases h
      · rename_i b1 h3
        cases h
        exact mkDate_valid h3
    · cases h
      exact mkDate_valid h1

/-! ## Evaluation lemmas for the query -/

lemma processRecord_eq (today : Date) (r : Record) (bstr : String)
    (d m y : Nat) (occ : Date)
    (hb : r.birthday = some bstr) (hp : parse3 bstr = some (d, m, y))
    (ho : resolveOccurrence today m d = .ok occ) :
    processRecord today r = .ok (upcomingEntry today r.name occ) := by
  unfold processRecord
  rw [hb]
  simp only [hp, ho]

lemma get_upcoming_singleton (today : Date) (name : String) (r : Record)
    (x : List (String × String)) (h : processRecord today r = .ok x) :
    AddressBook.get_upcoming_birthdays [(name, r)] today = .ok x := by
  unfold AddressBook.get_upcoming_birthdays
  simp only [List.map]
  unfold getUpcomingFrom
  rw [h]
  simp [getUpcomingFrom]

/-- C2: for every record kept by the upcoming-birthday query whose next
occurrence falls on a Saturday or Sunday (weekday five or six), the
reported greeting date is the date shifted by seven minus the weekday,
which is the following Monday (weekday zero, between one and two days
later); the window comparison in the hypothesis is on the unshifted
occurrence. -/
theorem upcoming_weekend_greets_following_monday
    (today : Date) (r : Record) (bstr : String) (d m y : Nat) (occ : Date)
    (hb : r.birthday = some bstr) (hp : parse3 bstr = some (d, m, y))
    (ho : resolveOccurrence today m d = .ok occ)
    (hin : 0 ≤ daysTo today occ ∧ daysTo today occ ≤ 7)
    (hw : 5 ≤ weekday occ) :
    AddressBook.get_upcoming_birthdays [(r.name, r)] today
        = .ok [(r.name, fmtDate (addDays occ (7 - weekday occ)))]
    ∧ weekday (addDays occ (7 - weekday occ)) = 0
    ∧ rataDie occ < rataDie (addDays occ (7 - weekday occ))
    ∧ rataDie (addDays occ (7 - weekday occ)) ≤ rataDie occ + 2 := by
  have hocc := resolveOccurrence_valid ho
  have hpr := processRecord_eq today r bstr d m y occ hb hp ho
  have hsing := get_upcoming_singleton today r.name r _ hpr
  have hadd := (addDays_spec occ hocc (7 - weekday occ)).2
  refine ⟨?_, ?_, ?_, ?_⟩
  · rw [hsing]
    unfold upcomingEntry
    rw [if_pos hin, if_pos hw]
  · unfold weekday at *
    omega
  · unfold weekday at *
    omega
  · unfold weekday at *
    omega

/-- C2 witness: a birthday occurring Saturday 2024-06-15 with today
Monday 2024-06-10 is reported on Monday 2024-06-17. -/
theorem upcoming_weekend_greets_following_monday_witness :
    AddressBook.get_upcoming_birthdays
        [("Ann", ⟨"Ann", [], some "15.06.1990"⟩)] ⟨2024, 6, 10⟩
        = .ok [("Ann", fmtDate (addDays ⟨2024, 6, 15⟩ (7 - weekday ⟨2024, 6, 15⟩)))]
    ∧ weekday (addDays ⟨2024, 6, 15⟩ (7 - weekday ⟨2024, 6, 15⟩)) = 0
    ∧ fmtDate (addDays ⟨2024, 6, 15⟩ (7 - weekday ⟨2024, 6, 15⟩)) = "17.06.2024" := by
  have h := upcoming_weekend_greets_following_monday ⟨2024, 6, 10⟩
    ⟨"Ann", [], some "15.06.1990"⟩ "15.06.1990" 15 6 1990 ⟨2024, 6, 15⟩
    rfl rfl rfl (by decide) (by decide)
  exact ⟨h.1, h.2.1, rfl⟩

/-- C3: under the same setup, the record is kept (the singleton query
returns exactly one entry for it) if and only if the day count from today
to the resolved occurrence lies between zero and seven, both inclusive. -/
theorem upcoming_kept_iff_window
    (today : Date) (r : Record) (bstr : String) (d m y : Nat) (occ : Date)
    (hb : r.birthday = some bstr) (hp : parse3 bstr = some (d, m, y))
    (ho : resolveOccurrence today m d = .ok occ) :
    (∃ g, AddressBook.get_upcoming_birthdays [(r.name, r)] today
        = .ok [(r.name, g)])
      ↔ (0 ≤ daysTo today occ ∧ daysTo today occ ≤ 7) := by
  have hpr := processRecord_eq today r bstr d m y occ hb hp ho
  have hsing := get_upcoming_singleton today r.name r _ hpr
  constructor
  · rintro ⟨g, hg⟩
    by_contra hnot
    rw [hsing] at hg
    unfold upcomingEntry at hg
    rw [if_neg hnot] at hg
    simp at hg
  · intro hwdw
    refine ⟨fmtDate (if 5 ≤ weekday occ then addDays occ (7 - weekday occ)
      else occ), ?_⟩
    rw [hsing]
    unfold upcomingEntry
    rw [if_pos hwdw]

/-- C3 witness: with today 2024-06-10 and occurrence 2024-06-17 the day
count is exactly seven and the record is kept, showing the upper bound is
inclusive. -/
theorem upcoming_kept_iff_window_witness :
    (∃ g, AddressBook.get_upcoming_birthdays
        [("Bob", ⟨"Bob", [], some "17.06.1990"⟩)] ⟨2024, 6, 10⟩
        = .ok [("Bob", g)])
    ∧ daysTo ⟨2024, 6, 10⟩ ⟨2024, 6, 17⟩ = 7 := by
  have h := upcoming_kept_iff_window ⟨2024, 6, 10⟩
    ⟨"Bob", [], some "17.06.1990"⟩ "17.06.1990" 17 6 1990 ⟨2024, 6, 17⟩
    rfl rfl rfl
  exact ⟨h.mpr (by decide), rfl⟩

/-- C4: when this year holds a real date at the parsed month and day (and
next year too, in case of a roll), the occurrence the query measures the
day count against is the date in the current year, replaced by the same
month and day of the next year exactly when that date is strictly before today;
the per-record computation then filters on the day count to it. -/
theorem occurrence_rolls_to_next_year_when_passed
    (today : Date) (m d : Nat)
    (hv : validDate ⟨today.year, m, d⟩ = true ∧ today.year ≤ 9999)
    (hroll : dateLt ⟨today.year, m, d⟩ today = true →
      validDate ⟨today.year + 1, m, d⟩ = true ∧ today.year + 1 ≤ 9999) :
    resolveOccurrence today m d
        = .ok (if dateLt ⟨today.year, m, d⟩ today
            then (⟨today.year + 1, m, d⟩ : Date) else ⟨today.year, m, d⟩)
    ∧ ∀ (r : Record) (bstr : String) (y : Nat), r.birthday = some bstr →
        parse3 bstr = some (d, m, y) →
        processRecord today r
          = .ok (upcomingEntry today r.name
              (if dateLt ⟨today.year, m, d⟩ today
                then (⟨today.year + 1, m, d⟩ : Date) else ⟨today.year, m, d⟩)) := by
  have h1 : mkDate today.year m d = some ⟨today.year, m, d⟩ := by
    unfold mkDate
    rw [if_pos]
    rw [hv.1]
    simp [hv.2]
  have hres : resolveOccurrence today m d
      = .ok (if dateLt ⟨today.year, m, d⟩ today
          then (⟨today.year + 1, m, d⟩ : Date) else ⟨today.year, m, d⟩) := by
    unfold resolveOccurrence
    rw [h1]
    by_cases hlt : dateLt ⟨today.year, m, d⟩ today = true
    · obtain ⟨hv2, hy2⟩ := hroll hlt
      have h2 : mkDate (today.year + 1) m d = some ⟨today.year + 1, m, d⟩ := by
        unfold mkDate
        rw [if_pos]
        rw [hv2]
        simp [hy2]
      simp only [hlt, if_true, h2, if_pos hlt]
    · simp only [if_neg hlt]
  refine ⟨hres, ?_⟩
  intro r bstr y hb hp
  exact processRecord_eq today r bstr d m y _ hb hp hres

/-- C4 witness: with today 2024-06-20 the occurrence 15.06 of this year
has already passed, so the query measures against 2025-06-15. -/
theorem occurrence_rolls_to_next_year_when_passed_witness :
    resolveOccurrence ⟨2024, 6, 20⟩ 6 15 = .ok ⟨2025, 6, 15⟩
    ∧ processRecord ⟨2024, 6, 20⟩ ⟨"Bob", [], some "15.06.1990"⟩
        = .ok (upcomingEntry ⟨2024, 6, 20⟩ "Bob" ⟨2025, 6, 15⟩) := by
  have h := occurrence_rolls_to_next_year_when_passed ⟨2024, 6, 20⟩ 6 15
    (by decide) (by decide)
  exact ⟨h.1, h.2 ⟨"Bob", [], some "15.06.1990"⟩ "15.06.1990" 1990 rfl rfl⟩

/-- C1: the Birthday validator accepts 29.02.2021 although 2021 is not a
leap year and that date is not a real calendar date, so a book holding it
makes the upcoming-birthday query raise at datetime construction; the
validator does accept 29.02.2020. -/
theorem birthday_validator_accepts_nonreal_date :
    birthdayCheck "29.02.2021" = true
    ∧ validDate ⟨2021, 2, 29⟩ = false
    ∧ birthdayCheck "29.02.2020" = true
    ∧ AddressBook.get_upcoming_birthdays
        [("Kim", ⟨"Kim", [], some "29.02.2021"⟩)] ⟨2021, 1, 1⟩
        = .error (.valueError "day is out of range for month") :=
  ⟨rfl, rfl, rfl, rfl⟩

/-- C5 counterexample: with today Monday 2024-06-10 and stored birthday
15.06.1990, the query reports 17.06.2024 - the occurrence 2024-06-15 is a
Saturday and the greeting is shifted - not 15.06.2024 as claimed. -/
theorem upcoming_saturday_reports_seventeenth :
    AddressBook.get_upcoming_birthdays
        [("Bob", ⟨"Bob", [], some "15.06.1990"⟩)] ⟨2024, 6, 10⟩
        = .ok [("Bob", "17.06.2024")]
    ∧ "17.06.2024" ≠ "15.06.2024"
    ∧ weekday ⟨2024, 6, 10⟩ = 0
    ∧ weekday ⟨2024, 6, 15⟩ = 5 :=
  ⟨rfl, by decide, rfl, rfl⟩

/-- C5 amended: with today Monday 2024-06-10, a contact with stored
birthday 15.06 of a past year is included, with greeting date 17.06.2024
(the occurrence falls on Saturday and the greeting moves to Monday). -/
theorem upcoming_includes_contact_with_monday_greeting (ps : List String) :
    AddressBook.get_upcoming_birthdays
        [("Bob", ⟨"Bob", ps, some "15.06.1990"⟩)] ⟨2024, 6, 10⟩
        = .ok [("Bob", "17.06.2024")] := rfl

/-- C6 counterexample: a ten-digit string followed by a newline is not a
string of exactly ten decimal digits, yet the Phone validator accepts it,
because the dollar anchor of re.match also matches before a final
newline. -/
theorem phone_validator_accepts_trailing_newline :
    phoneCheck "1234567890\n" = true
    ∧ digits10 "1234567890\n".data = false
    ∧ "1234567890\n".data.length = 11 :=
  ⟨rfl, rfl, rfl⟩

/-- C6 amended: the Phone validator accepts exactly the strings of ten
decimal digits, possibly followed by one trailing newline; in particular
1234567890 is accepted and 12345 is rejected. -/
theorem phone_validator_characterization :
    (∀ s : String, phoneCheck s = true ↔
      (digits10 s.data = true ∨ ∃ l, s.data = l ++ ['\n'] ∧ digits10 l = true))
    ∧ phoneCheck "1234567890" = true
    ∧ phoneCheck "12345" = false := by
  refine ⟨?_, rfl, rfl⟩
  intro s
  unfold phoneCheck pyMatchAnchored dropFinalNewline
  constructor
  · intro h
    rcases (Bool.or_eq_true _ _).mp h with h1 | h2
    · exact .inl h1
    · right
      rcases hrev : s.data.reverse with _ | ⟨c, r⟩
      · rw [hrev] at h2
        simp at h2
      · rw [hrev] at h2
        by_cases hc : c = '\n'
        · subst hc
          simp only [beq_self_eq_true, if_true] at h2
          refine ⟨r.reverse, ?_, h2⟩
          have h3 := congrArg List.reverse hrev
          simpa using h3
        · simp [hc] at h2
  · intro h
    rcases h with h1 | ⟨l, hl, hd⟩
    · exact (Bool.or_eq_true _ _).mpr (.inl h1)
    · refine (Bool.or_eq_true _ _).mpr (.inr ?_)
      rw [hl]
      simp [hd]

/-- C7: the very first single-token line - the hello command of the spec
itself, typed without arguments - makes the tuple unpack of the result of
parse input raise an uncaught ValueError in main, terminating the
process; a line with a space dispatches normally. -/
theorem dispatch_crashes_on_spaceless_line :
    mainStep ⟨2024, 6, 10⟩ [] "hello"
        = .error (.valueError "not enough values to unpack (expected 2, got 1)")
    ∧ parse_input "hello" = ["hello"]
    ∧ mainStep ⟨2024, 6, 10⟩ [] "hello there"
        = .ok (.output "How can I help you?" []) :=
  ⟨rfl, rfl, rfl⟩

/-- C8: for a name stored under no key of the book, find returns none,
and the operations that require the contact - change and add-birthday -
answer with the contact-not-found message and leave the book unchanged. -/
theorem missing_name_reports_not_found (book : AddressBook) (name : String)
    (h : ∀ kv ∈ book, kv.1 ≠ name) :
    AddressBook.find book name = none
    ∧ (∀ args old new, pySplitWs args = [name, old, new] →
        change_phone args book = ("Contact not found.", book))
    ∧ (∀ args b, pySplitWs args = [name, b] →
        add_birthday args book = ("Contact not found.", book)) := by
  have hf : AddressBook.find book name = none := by
    unfold AddressBook.find
    have hn : List.find? (fun kv => kv.1 == name) book = none := by
      rw [List.find?_eq_none]
      intro x hx
      simp [h x hx]
    rw [hn]
  refine ⟨hf, ?_, ?_⟩
  · intro args old new hsplit
    unfold change_phone change_phone_inner
    rw [hsplit]
    simp only [hf, input_error, errToMsg]
  · intro args b hsplit
    unfold add_birthday add_birthday_inner
    rw [hsplit]
    simp only [hf, input_error, errToMsg]

/-- C8 witness: Bob is not in a book holding only Ann; find yields none
and the change command answers contact not found. -/
theorem missing_name_reports_not_found_witness :
    AddressBook.find [("Ann", ⟨"Ann", [], none⟩)] "Bob" = none
    ∧ change_phone "Bob 1234567890 0987654321" [("Ann", ⟨"Ann", [], none⟩)]
        = ("Contact not found.", [("Ann", ⟨"Ann", [], none⟩)]) := by
  have h := missing_name_reports_not_found [("Ann", ⟨"Ann", [], none⟩)] "Bob"
    (by decide)
  exact ⟨h.1, h.2.1 "Bob 1234567890 0987654321" "1234567890" "0987654321" rfl⟩

/-- C9: adding two valid phones in sequence appends them at the end of
the phone list in the order of addition, leaving earlier entries as they
were. -/
theorem add_phone_preserves_insertion_order (r : Record) (p1 p2 : String)
    (h1 : phoneCheck p1 = true) (h2 : phoneCheck p2 = true) :
    (Record.add_phone r p1).bind (fun r1 => Record.add_phone r1 p2)
      = .ok { r with phones := r.phones ++ [p1, p2] } := by
  simp [Record.add_phone, h1, h2, Except.bind]

/-- C9 witness: two concrete valid phones end up in insertion order
behind an existing entry. -/
theorem add_phone_preserves_insertion_order_witness :
    phoneCheck "1234567890" = true ∧ phoneCheck "0987654321" = true
    ∧ (Record.add_phone ⟨"A", ["5550001111"], none⟩ "1234567890").bind
        (fun r1 => Record.add_phone r1 "0987654321")
      = .ok ⟨"A", ["5550001111", "1234567890", "0987654321"], none⟩ := by
  refine ⟨rfl, rfl, ?_⟩
  exact add_phone_preserves_insertion_order ⟨"A", ["5550001111"], none⟩
    "1234567890" "0987654321" rfl rfl

/-- C10: the string 31.04.2000 passes the Birthday shape check, so
add-birthday stores it, and the upcoming-birthday query on the resulting
book raises at datetime construction instead of returning a list. -/
theorem query_raises_on_shape_valid_unreal_date :
    birthdayCheck "31.04.2000" = true
    ∧ Record.add_birthday ⟨"Eve", [], none⟩ "31.04.2000"
        = .ok ⟨"Eve", [], some "31.04.2000"⟩
    ∧ AddressBook.get_upcoming_birthdays
        [("Eve", ⟨"Eve", [], some "31.04.2000"⟩)] ⟨2024, 6, 10⟩
        = .error (.valueError "day is out of range for month") :=
  ⟨rfl, rfl, rfl⟩
